import Mathlib

/-!
Verification of the crude-oil distillation profile fitting and blending
program (`get_distillation_profile.py`, `distillation_profile_fitting.py`).

The numeric pipeline is embedded shallowly.  Machine floats are modelled by
an arbitrary linear ordered field `α` (instantiated with `ℝ` for the claims
about the Gamma cumulative distribution function, and with `ℚ` for concrete
executable witnesses).  The two external numeric collaborators are explicit
parameters:

* `net` models the website (crude acronym and date to an optional parsed
  table, `none` being the "no crudes match the acronym / no samples" reply);
* a `Solver` models `scipy.optimize.curve_fit`, which on success returns the
  two fitted parameters and a 2×2 covariance matrix (the shape follows
  scipy's contract: the output has the shape of the initial guess `p0`,
  which the program fixes to `[5, 60]`), and on failure raises either
  `TypeError` (fewer data points than parameters) or `RuntimeError`
  (non-convergence).

Python exceptions are modelled with `Except`; each run also records the
trace of external events (network accesses and solver invocations) so that
ordering claims ("before any fetch") are statable.
-/

set_option maxRecDepth 8000

namespace DistillRepo

/-- Python exception kinds the program can raise or catch. -/
inductive PyErr where
  | assertionError
  | typeError
  | runtimeError
  | zeroDivisionError
deriving DecidableEq

/-- Failure modes of `scipy.optimize.curve_fit`: `TypeError` when the number
of parameters exceeds the number of data points, `RuntimeError` when the
least-squares optimization does not converge. -/
inductive SolverErr where
  | typeError
  | runtimeError
deriving DecidableEq

/-- The Python exception corresponding to a solver failure. -/
def pyErrOfSolverErr : SolverErr → PyErr
  | SolverErr.typeError => PyErr.typeError
  | SolverErr.runtimeError => PyErr.runtimeError

/-- Observable external events of a run: one network access per call of
`get_distillation_profile`, one solver invocation per `curve_fit` call. -/
inductive Ev where
  | fetch (crude date : String)
  | solve (crude : String)
deriving DecidableEq

/-- A row label of the scraped table: the string `"IBP"` or a numeric label
(the recovered mass percentage, parsed by Python's `float`). -/
inductive Label where
  | IBP
  | num (q : ℚ)
deriving DecidableEq

/-- The parsed distillation table that `get_distillation_profile` returns:
the row index and the `"Temperature( oC )"` column, where `none` stands for
a `NaN` entry (a `"-"` in the page).  A pandas data frame's index and column
have the same length. -/
structure Profile where
  labels : List Label
  temps : List (Option ℚ)
  hlen : labels.length = temps.length

/-- `float(x) / 100 if x != "IBP" else 0` applied to one row label. -/
def fracOfLabel : Label → ℚ
  | Label.IBP => 0
  | Label.num q => q / 100

/-- `crude_df["Temperature( oC )"].dropna()`. -/
def dropna (df : Profile) : List ℚ :=
  df.temps.filterMap id

/-- `[float(x) / 100 if x != "IBP" else 0 for x in list(crude_df.index)][0:len(temp)]`. -/
def distilledOf (df : Profile) : List ℚ :=
  (df.labels.map fracOfLabel).take (dropna df).length

/-- Python's `max` on a list (junk value 0 on the empty list, which the
program never reaches with a successful fit). -/
def pyMax : List ℚ → ℚ
  | [] => 0
  | x :: xs => xs.foldl max x

/-- Result of one `scipy.optimize.curve_fit` call with a 2-element initial
guess: fitted parameters `a`, `b` and the 2×2 covariance matrix, or an
exception. -/
inductive SolverResult (α : Type) where
  | ok (a b : α) (cov : Matrix (Fin 2) (Fin 2) α)
  | err (e : SolverErr)

/-- The abstract nonlinear least-squares solver: a function of the x-data,
the y-data and the initial guess `p0`. -/
def Solver (α : Type) : Type :=
  List ℚ → List ℚ → ℚ × ℚ → SolverResult α

/-- `np.linspace(0, hi, 1000)` at index `i`: `hi * i / 999`. -/
def linspaceAt {α : Type} [LinearOrderedField α] (hi : α) (i : ℕ) : α :=
  hi * (i : α) / 999

/-- The numeric payload `gamma_fit` returns: fit parameters, covariance
matrix and the 1000 evaluated curve values (the plot axis is a rendering
artifact outside the numeric contract). -/
structure FitResult (α : Type) where
  fit_params : List α
  cov_matrix : Matrix (Fin 2) (Fin 2) α
  fit_vals : List α

/-- `scipy.stats.gamma(a=a, scale=b).cdf(np.linspace(0, max(temp), 1000))`:
the fitted curve evaluated on a 1000-point grid over `[0, max(temp)]`. -/
def fit_vals_def {α : Type} [LinearOrderedField α] (cdf : α → α → α → α)
    (a b : α) (m : ℚ) : List α :=
  (List.range 1000).map (fun i => cdf a b (linspaceAt ((m : α)) i))

/-- The fitting stage of `gamma_fit` after the fetch: drop the missing
temperatures, derive the observed fractions from the row labels, call
`curve_fit` with the fixed initial guess `(5, 60)`, and evaluate the fitted
curve. -/
def gamma_fit_core {α : Type} [LinearOrderedField α] (cdf : α → α → α → α)
    (solver : Solver α) (df : Profile) : Except PyErr (FitResult α) :=
  match solver (dropna df) (distilledOf df) (5, 60) with
  | SolverResult.err e => Except.error (pyErrOfSolverErr e)
  | SolverResult.ok a b cov =>
      Except.ok (FitResult.mk [a, b] cov (fit_vals_def cdf a b (pyMax (dropna df))))

/-- `re.match("\d\d\d\d-\d\d-\d\d", date)`: `re.match` anchors only at the
start of the string, so this accepts any string that begins with the
pattern. -/
def dateRegexOk : List Char → Bool
  | y1 :: y2 :: y3 :: y4 :: c5 :: m1 :: m2 :: c8 :: d1 :: d2 :: _ =>
      y1.isDigit && y2.isDigit && y3.isDigit && y4.isDigit && (c5 == '-') &&
      m1.isDigit && m2.isDigit && (c8 == '-') && d1.isDigit && d2.isDigit
  | _ => false

/-- The condition of the `assert` guarding `get_distillation_profile`. -/
def dateAssertOk (date : String) : Bool :=
  (date == "recent") || dateRegexOk date.toList

/-- `get_distillation_profile`: assert the date format, then (and only then)
access the network; an unknown acronym or a date without samples comes back
as `none`.  The first component is the trace of network events. -/
def get_distillation_profile (net : String → String → Option Profile)
    (crude date : String) : List Ev × Except PyErr (Option Profile) :=
  if dateAssertOk date then ([Ev.fetch crude date], Except.ok (net crude date))
  else ([], Except.error PyErr.assertionError)

/-- `gamma_fit`: fetch the crude's table; on `None` return `None` at once,
otherwise run the fitting stage.  The trace records the network access and,
when reached, the solver invocation. -/
def gamma_fit_run {α : Type} [LinearOrderedField α] (cdf : α → α → α → α)
    (solver : Solver α) (net : String → String → Option Profile)
    (crude date : String) : List Ev × Except PyErr (Option (FitResult α)) :=
  match get_distillation_profile net crude date with
  | (tr, Except.error e) => (tr, Except.error e)
  | (tr, Except.ok none) => (tr, Except.ok none)
  | (tr, Except.ok (some df)) =>
      match gamma_fit_core cdf solver df with
      | Except.error e => (tr ++ [Ev.solve crude], Except.error e)
      | Except.ok r => (tr ++ [Ev.solve crude], Except.ok (some r))

/-- First index of the minimum among `bv` and the rest of the list (indices
already seen start at `i`, current best `best` at value `bv`); the strict
comparison keeps the earliest minimum, as `numpy.argmin` does. -/
def argminGo {α : Type} [LinearOrder α] (best : ℕ) (bv : α) (i : ℕ) :
    List α → ℕ
  | [] => best
  | x :: xs => if x < bv then argminGo i x (i + 1) xs else argminGo best bv (i + 1) xs

/-- `numpy.argmin`: index of the first occurrence of the least element
(junk value 0 on the empty array, on which numpy raises). -/
def argminIdx {α : Type} [LinearOrder α] : List α → ℕ
  | [] => 0
  | x :: xs => argminGo 0 x 1 xs

/-- `np.absolute(mixture_model - x).argmin()`. -/
def argminAbs {α : Type} [LinearOrderedField α] (mixture : List α) (x : α) : ℕ :=
  argminIdx (mixture.map (fun m => |m - x|))

/-- `np.absolute(mixture_model - x).argmin() - 1`: the value the program
stores in the output's `"Temperature (oC)"` column for target fraction `x`. -/
def reported_temp {α : Type} [LinearOrderedField α] (mixture : List α) (x : α) : ℤ :=
  (argminAbs mixture x : ℤ) - 1

/-- The temperature of the grid point whose mixture value is closest to the
target fraction `x` (ties to the lowest index): what the spec says the
program reports.  The grid is `np.linspace(0, 1000, 1000)`. -/
def spec_nearest_grid_temp {α : Type} [LinearOrderedField α]
    (mixture : List α) (x : α) : α :=
  linspaceAt 1000 (argminAbs mixture x)

/-- `[0.05] + [0.1*x for x in range(1, 10)] + [0.95, 0.99]` (sic: the name
reproduces the source's spelling). -/
def distilliation_percentages (α : Type) [LinearOrderedField α] : List α :=
  [5 / 100] ++ (List.range' 1 9).map (fun x : ℕ => (1 / 10) * (x : α)) ++ [95 / 100, 99 / 100]

/-- The volume-weighted mixture curve on the 1000-point grid over
`[0, 1000]`: `(vol1/total)*F1(temps) + (vol2/total)*F2(temps)`. -/
def mixture_model {α : Type} [LinearOrderedField α] (cdf : α → α → α → α)
    (a1 b1 a2 b2 v1 v2 : α) : List α :=
  (List.range 1000).map (fun i =>
    (v1 / (v1 + v2)) * cdf a1 b1 (linspaceAt 1000 i) +
    (v2 / (v1 + v2)) * cdf a2 b2 (linspaceAt 1000 i))

/-- The rows of the output data frame: each target mass fraction paired with
the value the program computes for it from the mixture curve. -/
def mix_profile_rows {α : Type} [LinearOrderedField α] (mixture : List α) :
    List (α × ℤ) :=
  (distilliation_percentages α).zip
    ((distilliation_percentages α).map (fun x => reported_temp mixture x))

/-- What a call of `gamma_mixture_distillation_profile` can come to: a data
frame of rows (the figure is a rendering artifact), Python's `None`, or an
uncaught exception. -/
inductive BlendOutcome (α : Type) where
  | ok (rows : List (α × ℤ))
  | absent
  | err (e : PyErr)
deriving DecidableEq

/-- One run of the blender: its external event trace and its outcome. -/
structure BlendRun (α : Type) where
  trace : List Ev
  out : BlendOutcome α

/-- `gamma_mixture_distillation_profile`: assert `vol1 >= 0 and vol2 >= 0`,
fit each crude in turn with date `"recent"` (a `TypeError` — unpacking
`None`, or a fit of fewer than two points — is caught and turns into
`return None`; any other exception propagates), then divide by the total
volume (a `ZeroDivisionError` when it is zero) and build the mixture rows. -/
def gamma_mixture_distillation_profile {α : Type} [LinearOrderedField α]
    (cdf : α → α → α → α) (solver : Solver α)
    (net : String → String → Option Profile) (crude1 crude2 : String)
    (vol1 vol2 : α) : BlendRun α :=
  if 0 ≤ vol1 ∧ 0 ≤ vol2 then
    match gamma_fit_run cdf solver net crude1 "recent" with
    | (tr1, Except.error PyErr.typeError) => BlendRun.mk tr1 BlendOutcome.absent
    | (tr1, Except.error e) => BlendRun.mk tr1 (BlendOutcome.err e)
    | (tr1, Except.ok none) => BlendRun.mk tr1 BlendOutcome.absent
    | (tr1, Except.ok (some f1)) =>
        match gamma_fit_run cdf solver net crude2 "recent" with
        | (tr2, Except.error PyErr.typeError) => BlendRun.mk (tr1 ++ tr2) BlendOutcome.absent
        | (tr2, Except.error e) => BlendRun.mk (tr1 ++ tr2) (BlendOutcome.err e)
        | (tr2, Except.ok none) => BlendRun.mk (tr1 ++ tr2) BlendOutcome.absent
        | (tr2, Except.ok (some f2)) =>
            if vol1 + vol2 = 0 then
              BlendRun.mk (tr1 ++ tr2) (BlendOutcome.err PyErr.zeroDivisionError)
            else
              BlendRun.mk (tr1 ++ tr2) (BlendOutcome.ok (mix_profile_rows
                (mixture_model cdf
                  (f1.fit_params.getD 0 0) (f1.fit_params.getD 1 0)
                  (f2.fit_params.getD 0 0) (f2.fit_params.getD 1 0) vol1 vol2)))
  else BlendRun.mk [] (BlendOutcome.err PyErr.assertionError)

/-- `scipy.stats.gamma(a=a, scale=b).cdf`: the Gamma cumulative distribution
function with shape `a` and scale `b` (Mathlib's `gammaCDFReal` is
parameterized by the rate, the inverse scale). -/
noncomputable def scipy_gamma_cdf (a b x : ℝ) : ℝ :=
  ProbabilityTheory.gammaCDFReal a b⁻¹ x

/-- The claim-side reading of the date contract: the whole string matches
`YYYY-MM-DD` (four digits, dash, two digits, dash, two digits, nothing
after). -/
def dateFullPatB : List Char → Bool
  | [y1, y2, y3, y4, c5, m1, m2, c8, d1, d2] =>
      y1.isDigit && y2.isDigit && y3.isDigit && y4.isDigit && (c5 == '-') &&
      m1.isDigit && m2.isDigit && (c8 == '-') && d1.isDigit && d2.isDigit
  | _ => false

/-- The amended date contract, spelled structurally: some string of ten
characters shaped `dddd-dd-dd` is an initial segment of the date. -/
def dateStartsPat (s : List Char) : Prop :=
  ∃ y1 y2 y3 y4 m1 m2 d1 d2 rest, s =
      y1 :: y2 :: y3 :: y4 :: '-' :: m1 :: m2 :: '-' :: d1 :: d2 :: rest ∧
    y1.isDigit ∧ y2.isDigit ∧ y3.isDigit ∧ y4.isDigit ∧
    m1.isDigit ∧ m2.isDigit ∧ d1.isDigit ∧ d2.isDigit

/-- A two-row sample profile (the shape of a parsed assay table). -/
def sampleProfile : Profile :=
  Profile.mk [Label.IBP, Label.num 5] [some 36, some 60] rfl

/-- A second copy of the sample profile, byte for byte. -/
def sampleProfileCopy : Profile :=
  Profile.mk [Label.IBP, Label.num 5] [some 36, some 60] rfl

/-- A network oracle that answers every request with the sample profile. -/
def netC : String → String → Option Profile := fun _ _ => some sampleProfile

/-- A network oracle with no data for any crude. -/
def netNone : String → String → Option Profile := fun _ _ => none

/-- A degenerate curve model for executable rational witnesses. -/
def cdf0 : ℚ → ℚ → ℚ → ℚ := fun _ _ _ => 0

/-- A solver that always converges to parameters `(1, 1)`. -/
def solver0 : Solver ℚ := fun _ _ _ => SolverResult.ok 1 1 0

/-- A real-valued solver that always converges to parameters `(1, 1)`. -/
def solverR : Solver ℝ := fun _ _ _ => SolverResult.ok 1 1 0

/-- A solver whose optimization never converges. -/
def solverFail : Solver ℚ := fun _ _ _ => SolverResult.err SolverErr.runtimeError

/-- The number of rows of a successful blend's data frame. -/
def out_rows_len {α : Type} : BlendOutcome α → Option ℕ
  | BlendOutcome.ok rows => some rows.length
  | _ => none

/-- The rows the degenerate rational blend produces: every target fraction
is reported with "temperature" `-1`. -/
def rowsC : List (ℚ × ℤ) :=
  [(5/100, -1), (1/10, -1), (2/10, -1), (3/10, -1), (4/10, -1), (5/10, -1),
   (6/10, -1), (7/10, -1), (8/10, -1), (9/10, -1), (95/100, -1), (99/100, -1)]

/- Helper lemmas (evaluation of the embedded program and basic facts). -/

theorem argminGo_const {α : Type} [LinearOrder α] (n best i : ℕ) (bv : α) :
    argminGo best bv i (List.replicate n bv) = best := by
  induction n generalizing best i with
  | zero => rfl
  | succ k ih => simp [List.replicate, argminGo, lt_irrefl, ih]

theorem argminIdx_replicate {α : Type} [LinearOrder α] (n : ℕ) (c : α) :
    argminIdx (List.replicate n c) = 0 := by
  cases n with
  | zero => rfl
  | succ k => simp [List.replicate, argminIdx, argminGo_const]

theorem reported_temp_replicate {α : Type} [LinearOrderedField α] (n : ℕ) (c x : α) :
    reported_temp (List.replicate n c) x = -1 := by
  simp [reported_temp, argminAbs, List.map_replicate, argminIdx_replicate]

theorem mixture_model_cdf0 (a1 b1 a2 b2 v1 v2 : ℚ) :
    mixture_model cdf0 a1 b1 a2 b2 v1 v2 = List.replicate 1000 0 := by
  have h : (fun i : ℕ => (v1 / (v1 + v2)) * cdf0 a1 b1 (linspaceAt 1000 i) +
      (v2 / (v1 + v2)) * cdf0 a2 b2 (linspaceAt 1000 i)) = fun _ : ℕ => (0:ℚ) := by
    funext i; simp [cdf0]
  rw [mixture_model, h, List.map_const', List.length_range]

theorem gamma_fit_run_ok {α : Type} [LinearOrderedField α] (cdf : α → α → α → α)
    (solver : Solver α) (net : String → String → Option Profile) (c : String)
    (df : Profile) (a b : α) (cov : Matrix (Fin 2) (Fin 2) α)
    (hnet : net c "recent" = some df)
    (hs : solver (dropna df) (distilledOf df) (5, 60) = SolverResult.ok a b cov) :
    gamma_fit_run cdf solver net c "recent" =
      ([Ev.fetch c "recent", Ev.solve c], Except.ok (some
        (FitResult.mk [a, b] cov (fit_vals_def cdf a b (pyMax (dropna df)))))) := by
  unfold gamma_fit_run get_distillation_profile
  rw [if_pos (show dateAssertOk "recent" = true from rfl), hnet]
  dsimp only
  unfold gamma_fit_core
  rw [hs]
  rfl

theorem blend_ok_of_runs {α : Type} [LinearOrderedField α] (cdf : α → α → α → α)
    (solver : Solver α) (net : String → String → Option Profile)
    (c1 c2 : String) (v1 v2 : α) (tr1 tr2 : List Ev) (f1 f2 : FitResult α)
    (hv1 : 0 ≤ v1) (hv2 : 0 ≤ v2) (hvs : ¬ v1 + v2 = 0)
    (h1 : gamma_fit_run cdf solver net c1 "recent" = (tr1, Except.ok (some f1)))
    (h2 : gamma_fit_run cdf solver net c2 "recent" = (tr2, Except.ok (some f2))) :
    gamma_mixture_distillation_profile cdf solver net c1 c2 v1 v2 =
      BlendRun.mk (tr1 ++ tr2) (BlendOutcome.ok (mix_profile_rows (mixture_model cdf
        (f1.fit_params.getD 0 0) (f1.fit_params.getD 1 0)
        (f2.fit_params.getD 0 0) (f2.fit_params.getD 1 0) v1 v2))) := by
  unfold gamma_mixture_distillation_profile
  rw [if_pos ⟨hv1, hv2⟩, h1, h2]
  dsimp only
  rw [if_neg hvs]

theorem percentages_eq {α : Type} [LinearOrderedField α] :
    distilliation_percentages α =
      [5/100, 1/10, 2/10, 3/10, 4/10, 5/10, 6/10, 7/10, 8/10, 9/10, 95/100, 99/100] := by
  unfold distilliation_percentages
  norm_num [List.range']

theorem mix_rows_replicate : mix_profile_rows (List.replicate 1000 (0:ℚ)) = rowsC := by
  unfold mix_profile_rows
  have hm : (distilliation_percentages ℚ).map
        (fun x => reported_temp (List.replicate 1000 (0:ℚ)) x)
      = (distilliation_percentages ℚ).map (fun _ => (-1 : ℤ)) :=
    List.map_congr_left (fun x _ => reported_temp_replicate 1000 0 x)
  rw [hm, percentages_eq]
  rfl

theorem blend_concrete_eq :
    gamma_mixture_distillation_profile cdf0 solver0 netC "MGS" "RA" 10 5 =
      BlendRun.mk [Ev.fetch "MGS" "recent", Ev.solve "MGS", Ev.fetch "RA" "recent", Ev.solve "RA"]
        (BlendOutcome.ok rowsC) := by
  have h1 := gamma_fit_run_ok cdf0 solver0 netC "MGS" sampleProfile 1 1 0 rfl rfl
  have h2 := gamma_fit_run_ok cdf0 solver0 netC "RA" sampleProfile 1 1 0 rfl rfl
  rw [blend_ok_of_runs cdf0 solver0 netC "MGS" "RA" 10 5 _ _ _ _ (by norm_num) (by norm_num)
    (by norm_num) h1 h2]
  rw [show (FitResult.mk [(1:ℚ), 1] 0
    (fit_vals_def cdf0 1 1 (pyMax (dropna sampleProfile)))).fit_params = [1, 1] from rfl]
  rw [mixture_model_cdf0, mix_rows_replicate]
  rfl

theorem scipy_gamma_cdf_nonneg (a b x : ℝ) : 0 ≤ scipy_gamma_cdf a b x :=
  ProbabilityTheory.cdf_nonneg _ x

theorem scipy_gamma_cdf_le_one (a b x : ℝ) : scipy_gamma_cdf a b x ≤ 1 :=
  ProbabilityTheory.cdf_le_one _ x

theorem scipy_gamma_cdf_mono (a b : ℝ) : Monotone (scipy_gamma_cdf a b) :=
  (ProbabilityTheory.gammaCDFReal a b⁻¹).mono

theorem blend_ok_rows {α : Type} [LinearOrderedField α] (cdf : α → α → α → α)
    (solver : Solver α) (net : String → String → Option Profile)
    (c1 c2 : String) (v1 v2 : α) (rows : List (α × ℤ))
    (h : (gamma_mixture_distillation_profile cdf solver net c1 c2 v1 v2).out =
      BlendOutcome.ok rows) :
    ∃ m : List α, rows = mix_profile_rows m := by
  unfold gamma_mixture_distillation_profile at h
  by_cases hv : 0 ≤ v1 ∧ 0 ≤ v2
  · rw [if_pos hv] at h
    rcases h1 : gamma_fit_run cdf solver net c1 "recent" with ⟨tr1, r1⟩
    rw [h1] at h
    cases r1 with
    | error e => cases e <;> simp_all
    | ok o =>
      cases o with
      | none => simp_all
      | some f1 =>
        rcases h2 : gamma_fit_run cdf solver net c2 "recent" with ⟨tr2, r2⟩
        rw [h2] at h
        cases r2 with
        | error e => cases e <;> simp_all
        | ok o2 =>
          cases o2 with
          | none => simp_all
          | some f2 =>
            dsimp only at h
            by_cases hz : v1 + v2 = 0
            · rw [if_pos hz] at h
              simp at h
            · rw [if_neg hz] at h
              simp only [BlendOutcome.ok.injEq] at h
              exact ⟨_, h.symm⟩
  · rw [if_neg hv] at h
    simp at h

theorem gamma_fit_run_recent_starts {α : Type} [LinearOrderedField α]
    (cdf : α → α → α → α) (solver : Solver α)
    (net : String → String → Option Profile) (c : String) :
    ∃ rest, (gamma_fit_run cdf solver net c "recent").1 = Ev.fetch c "recent" :: rest := by
  unfold gamma_fit_run get_distillation_profile
  rw [if_pos (show dateAssertOk "recent" = true from rfl)]
  cases hn : net c "recent" with
  | none => exact ⟨[], rfl⟩
  | some df =>
    dsimp only
    cases hc : gamma_fit_core cdf solver df with
    | error e => exact ⟨[Ev.solve c], rfl⟩
    | ok r => exact ⟨[Ev.solve c], rfl⟩

theorem gamma_fit_run_recent_err {α : Type} [LinearOrderedField α]
    (cdf : α → α → α → α) (solver : Solver α)
    (net : String → String → Option Profile) (c : String) (e : PyErr)
    (h : (gamma_fit_run cdf solver net c "recent").2 = Except.error e) :
    e = PyErr.typeError ∨ e = PyErr.runtimeError := by
  unfold gamma_fit_run get_distillation_profile at h
  rw [if_pos (show dateAssertOk "recent" = true from rfl)] at h
  cases hn : net c "recent" with
  | none => rw [hn] at h; simp at h
  | some df =>
    rw [hn] at h
    dsimp only at h
    unfold gamma_fit_core at h
    cases hs : solver (dropna df) (distilledOf df) (5, 60) with
    | ok a b cov => rw [hs] at h; simp at h
    | err se =>
      rw [hs] at h
      cases se with
      | typeError => left; simpa using h.symm
      | runtimeError => right; simpa using h.symm

/- Claim theorems. -/

/-- Claim C1 (code_bug): the spec says the reported temperature is the
temperature `temps[i] = 1000*i/999` of the grid point `i` whose mixture
value is closest to the target fraction; the program instead stores
`argmin - 1`, the grid index minus one, in the `"Temperature (oC)"` column.
These never coincide: the stored value is always strictly below the grid
temperature (at every mixture curve and every target fraction). -/
theorem reported_temp_below_nearest_grid_temp (mixture : List ℝ) (x : ℝ) :
    ((reported_temp mixture x : ℤ) : ℝ) < spec_nearest_grid_temp mixture x := by
  unfold reported_temp spec_nearest_grid_temp linspaceAt
  push_cast
  rw [lt_div_iff₀ (by norm_num : (0:ℝ) < 999)]
  have h0 : (0:ℝ) ≤ (argminAbs mixture x : ℝ) := Nat.cast_nonneg _
  nlinarith

/-- Claim C2 counterexample: a successful blend (constant solver, sample
network data, volumes 10 and 5) has 12 rows, not 11. -/
theorem blend_rows_not_eleven :
    (out_rows_len (gamma_mixture_distillation_profile cdf0 solver0 netC
        "MGS" "RA" 10 5).out == some 11) = false ∧
    out_rows_len (gamma_mixture_distillation_profile cdf0 solver0 netC
        "MGS" "RA" 10 5).out = some 12 := by
  rw [blend_concrete_eq]
  exact ⟨rfl, rfl⟩

/-- Claim C2 (amended): every successful blend's profile table has exactly
12 rows, and its fraction column is exactly
`[0.05, 0.1, 0.2, 0.3, 0.4, 0.5, 0.6, 0.7, 0.8, 0.9, 0.95, 0.99]`
in that order. -/
theorem blend_profile_shape {α : Type} [LinearOrderedField α]
    (cdf : α → α → α → α) (solver : Solver α)
    (net : String → String → Option Profile) (c1 c2 : String) (v1 v2 : α)
    (rows : List (α × ℤ))
    (h : (gamma_mixture_distillation_profile cdf solver net c1 c2 v1 v2).out =
      BlendOutcome.ok rows) :
    rows.length = 12 ∧ rows.map Prod.fst =
      [5/100, 1/10, 2/10, 3/10, 4/10, 5/10, 6/10, 7/10, 8/10, 9/10, 95/100, 99/100] := by
  obtain ⟨m, rfl⟩ := blend_ok_rows cdf solver net c1 c2 v1 v2 rows h
  constructor
  · rw [mix_profile_rows, List.length_zip, List.length_map, min_self, percentages_eq]
    rfl
  · rw [mix_profile_rows, List.map_fst_zip _ _ (le_of_eq (List.length_map _ _).symm),
      percentages_eq]

/-- Witness for C2: the concrete successful blend of the counterexample has
the amended shape. -/
theorem blend_profile_shape_witness :
    ((gamma_mixture_distillation_profile cdf0 solver0 netC "MGS" "RA" 10 5).out =
      BlendOutcome.ok rowsC) ∧ rowsC.length = 12 ∧ rowsC.map Prod.fst =
      [5/100, 1/10, 2/10, 3/10, 4/10, 5/10, 6/10, 7/10, 8/10, 9/10, 95/100, 99/100] := by
  have h : (gamma_mixture_distillation_profile cdf0 solver0 netC "MGS" "RA" 10 5).out =
      BlendOutcome.ok rowsC := by rw [blend_concrete_eq]
  exact ⟨h, blend_profile_shape cdf0 solver0 netC "MGS" "RA" 10 5 rowsC h⟩

/-- Claim C3 (code_bug): with `vol1 = vol2 = 0` the `assert` (which only
checks `vol1 >= 0 and vol2 >= 0`) passes, so the blend is not rejected as a
caller error: it fetches the first crude (the fetch event is in the trace),
and it can never succeed — when both fits do succeed it raises
`ZeroDivisionError` at the division by the total volume, after the fetches,
instead of being rejected before them. -/
theorem blend_zero_volumes_not_rejected {α : Type} [LinearOrderedField α]
    (cdf : α → α → α → α) (solver : Solver α)
    (net : String → String → Option Profile) (c1 c2 : String) :
    Ev.fetch c1 "recent" ∈
      (gamma_mixture_distillation_profile cdf solver net c1 c2 0 0).trace ∧
    (gamma_mixture_distillation_profile cdf solver net c1 c2 0 0).out ≠
      BlendOutcome.err PyErr.assertionError ∧
    ∀ rows, (gamma_mixture_distillation_profile cdf solver net c1 c2 0 0).out ≠
      BlendOutcome.ok rows := by
  obtain ⟨rest1, hshape⟩ := gamma_fit_run_recent_starts cdf solver net c1
  unfold gamma_mixture_distillation_profile
  rw [if_pos ⟨le_refl (0:α), le_refl (0:α)⟩]
  rcases h1 : gamma_fit_run cdf solver net c1 "recent" with ⟨tr1, r1⟩
  have htr1 : tr1 = Ev.fetch c1 "recent" :: rest1 := by rw [h1] at hshape; exact hshape
  have hmem1 : Ev.fetch c1 "recent" ∈ tr1 := by rw [htr1]; exact List.mem_cons_self _ _
  cases r1 with
  | error e =>
    have he := gamma_fit_run_recent_err cdf solver net c1 e (by rw [h1])
    cases e <;> simp_all
  | ok o =>
    cases o with
    | none => simp_all
    | some f1 =>
      rcases h2 : gamma_fit_run cdf solver net c2 "recent" with ⟨tr2, r2⟩
      cases r2 with
      | error e =>
        have he := gamma_fit_run_recent_err cdf solver net c2 e (by rw [h2])
        cases e <;> simp_all [List.mem_append]
      | ok o2 =>
        cases o2 with
        | none => simp_all [List.mem_append]
        | some f2 =>
          dsimp only
          rw [if_pos (show (0:α) + 0 = 0 by norm_num)]
          simp_all [List.mem_append]

/-- Claim C4: when the network has no data for the first crude, `gamma_fit`
comes back `None` without an exception and without a solver call, and the
blend returns `None` after that single network access: the second crude is
never fetched or fitted, so no partial mixture is built. -/
theorem absence_short_circuit {α : Type} [LinearOrderedField α]
    (cdf : α → α → α → α) (solver : Solver α)
    (net : String → String → Option Profile) (c1 c2 : String) (v1 v2 : α)
    (h1 : net c1 "recent" = none) (hv1 : 0 ≤ v1) (hv2 : 0 ≤ v2) :
    gamma_fit_run cdf solver net c1 "recent" =
      ([Ev.fetch c1 "recent"], Except.ok none) ∧
    gamma_mixture_distillation_profile cdf solver net c1 c2 v1 v2 =
      BlendRun.mk [Ev.fetch c1 "recent"] BlendOutcome.absent := by
  have hrun : gamma_fit_run cdf solver net c1 "recent" =
      ([Ev.fetch c1 "recent"], Except.ok none) := by
    unfold gamma_fit_run get_distillation_profile
    rw [if_pos (show dateAssertOk "recent" = true from rfl), h1]
  refine ⟨hrun, ?_⟩
  unfold gamma_mixture_distillation_profile
  rw [if_pos ⟨hv1, hv2⟩, hrun]

/-- Witness for C4 at a concrete absent fetch. -/
theorem absence_short_circuit_witness :
    (netNone "MGS" "recent" = none) ∧ ((0:ℚ) ≤ 10) ∧ ((0:ℚ) ≤ 5) ∧
    (gamma_fit_run cdf0 solver0 netNone "MGS" "recent" =
      ([Ev.fetch "MGS" "recent"], Except.ok none) ∧
    gamma_mixture_distillation_profile cdf0 solver0 netNone "MGS" "RA" 10 5 =
      BlendRun.mk [Ev.fetch "MGS" "recent"] BlendOutcome.absent) :=
  ⟨rfl, by norm_num, by norm_num,
    absence_short_circuit cdf0 solver0 netNone "MGS" "RA" 10 5 rfl
      (by norm_num) (by norm_num)⟩

/-- Claim C5: the mixture curve the blender computes has 1000 points, and at
each grid index `i < 1000` it equals the volume-weighted sum of the two
fitted Gamma cumulative distribution functions at the grid temperature
`1000*i/999`, a grid spanning `[0, 1000]`. -/
theorem mixture_curve_is_weighted_cdf_sum (a1 b1 a2 b2 v1 v2 : ℝ) (i : ℕ)
    (hv : v1 + v2 ≠ 0) (hi : i < 1000) :
    (mixture_model scipy_gamma_cdf a1 b1 a2 b2 v1 v2).length = 1000 ∧
    (mixture_model scipy_gamma_cdf a1 b1 a2 b2 v1 v2).getD i 0 =
      (v1 / (v1 + v2)) * ProbabilityTheory.gammaCDFReal a1 b1⁻¹ (1000 * (i:ℝ) / 999) +
      (v2 / (v1 + v2)) * ProbabilityTheory.gammaCDFReal a2 b2⁻¹ (1000 * (i:ℝ) / 999) ∧
    0 ≤ 1000 * (i:ℝ) / 999 ∧ 1000 * (i:ℝ) / 999 ≤ 1000 := by
  refine ⟨by simp [mixture_model], ?_, by positivity, ?_⟩
  · rw [mixture_model, List.getD_eq_getElem?_getD, List.getElem?_map,
      List.getElem?_range hi]
    simp [scipy_gamma_cdf, linspaceAt]
  · rw [div_le_iff₀ (by norm_num : (0:ℝ) < 999)]
    have hle : (i:ℝ) ≤ 999 := by exact_mod_cast Nat.le_of_lt_succ hi
    nlinarith

/-- Witness for C5 at unit parameters, volumes 10 and 5, grid index 3. -/
theorem mixture_curve_is_weighted_cdf_sum_witness :
    ((10:ℝ) + 5 ≠ 0) ∧ ((3:ℕ) < 1000) ∧
    ((mixture_model scipy_gamma_cdf 1 1 1 1 10 5).length = 1000 ∧
    (mixture_model scipy_gamma_cdf 1 1 1 1 10 5).getD 3 0 =
      ((10:ℝ) / (10 + 5)) * ProbabilityTheory.gammaCDFReal 1 1⁻¹ (1000 * ((3:ℕ):ℝ) / 999) +
      ((5:ℝ) / (10 + 5)) * ProbabilityTheory.gammaCDFReal 1 1⁻¹ (1000 * ((3:ℕ):ℝ) / 999) ∧
    0 ≤ 1000 * ((3:ℕ):ℝ) / 999 ∧ 1000 * ((3:ℕ):ℝ) / 999 ≤ 1000) :=
  ⟨by norm_num, by norm_num,
    mixture_curve_is_weighted_cdf_sum 1 1 1 1 10 5 3 (by norm_num) (by norm_num)⟩

/-- Claim C6: on a profile with at least two non-missing samples, with the
solver converging to positive parameters `a`, `b` (and a nonnegative
observed maximum temperature), `gamma_fit` returns the 2-element parameter
vector `[a, b]`, the 2×2 covariance matrix, and a 1000-point evaluated
curve over `[0, max(temp)]` whose values lie in `[0, 1]` and are
non-decreasing. -/
theorem gamma_fit_curve_properties (solver : Solver ℝ)
    (net : String → String → Option Profile) (c : String) (df : Profile)
    (a b : ℝ) (cov : Matrix (Fin 2) (Fin 2) ℝ)
    (hnet : net c "recent" = some df)
    (hn : 2 ≤ (dropna df).length)
    (hs : solver (dropna df) (distilledOf df) (5, 60) = SolverResult.ok a b cov)
    (ha : 0 < a) (hb : 0 < b) (hM : 0 ≤ pyMax (dropna df)) :
    (gamma_fit_run scipy_gamma_cdf solver net c "recent").2 = Except.ok (some
      (FitResult.mk [a, b] cov (fit_vals_def scipy_gamma_cdf a b (pyMax (dropna df))))) ∧
    ([a, b] : List ℝ).length = 2 ∧
    (fit_vals_def scipy_gamma_cdf a b (pyMax (dropna df))).length = 1000 ∧
    (∀ v ∈ fit_vals_def scipy_gamma_cdf a b (pyMax (dropna df)), 0 ≤ v ∧ v ≤ 1) ∧
    List.Sorted (fun x y => x ≤ y)
      (fit_vals_def scipy_gamma_cdf a b (pyMax (dropna df))) ∧
    ∀ i < 1000, 0 ≤ linspaceAt ((pyMax (dropna df) : ℝ)) i ∧
      linspaceAt ((pyMax (dropna df) : ℝ)) i ≤ ((pyMax (dropna df) : ℝ)) := by
  have hM' : (0:ℝ) ≤ ((pyMax (dropna df) : ℚ) : ℝ) := by exact_mod_cast hM
  refine ⟨?_, rfl, by simp [fit_vals_def], ?_, ?_, ?_⟩
  · rw [gamma_fit_run_ok scipy_gamma_cdf solver net c df a b cov hnet hs]
  · intro v hv
    obtain ⟨i, _, rfl⟩ := List.mem_map.mp hv
    exact ⟨scipy_gamma_cdf_nonneg a b _, scipy_gamma_cdf_le_one a b _⟩
  · refine List.Pairwise.map _ ?_ (List.pairwise_lt_range 1000)
    intro i j hij
    apply scipy_gamma_cdf_mono
    unfold linspaceAt
    have hij' : (i:ℝ) ≤ (j:ℝ) := by exact_mod_cast le_of_lt hij
    gcongr
  · intro i hi
    unfold linspaceAt
    constructor
    · positivity
    · rw [div_le_iff₀ (by norm_num : (0:ℝ) < 999)]
      have hle : (i:ℝ) ≤ 999 := by exact_mod_cast Nat.le_of_lt_succ hi
      nlinarith

/-- Witness for C6: the sample profile, the constant real solver. -/
theorem gamma_fit_curve_properties_witness :
    (netC "MGS" "recent" = some sampleProfile) ∧
    (2 ≤ (dropna sampleProfile).length) ∧
    (solverR (dropna sampleProfile) (distilledOf sampleProfile) (5, 60) =
      SolverResult.ok 1 1 0) ∧
    ((0:ℝ) < 1) ∧ (0 ≤ pyMax (dropna sampleProfile)) ∧
    ((gamma_fit_run scipy_gamma_cdf solverR netC "MGS" "recent").2 = Except.ok (some
      (FitResult.mk [1, 1] 0 (fit_vals_def scipy_gamma_cdf 1 1 (pyMax (dropna sampleProfile))))) ∧
    ([(1:ℝ), 1] : List ℝ).length = 2 ∧
    (fit_vals_def scipy_gamma_cdf 1 1 (pyMax (dropna sampleProfile))).length = 1000 ∧
    (∀ v ∈ fit_vals_def scipy_gamma_cdf 1 1 (pyMax (dropna sampleProfile)), 0 ≤ v ∧ v ≤ 1) ∧
    List.Sorted (fun x y => x ≤ y)
      (fit_vals_def scipy_gamma_cdf 1 1 (pyMax (dropna sampleProfile))) ∧
    ∀ i < 1000, 0 ≤ linspaceAt ((pyMax (dropna sampleProfile) : ℝ)) i ∧
      linspaceAt ((pyMax (dropna sampleProfile) : ℝ)) i ≤ ((pyMax (dropna sampleProfile) : ℝ))) := by
  have hM : 0 ≤ pyMax (dropna sampleProfile) := by
    show (0:ℚ) ≤ pyMax [36, 60]
    unfold pyMax
    simp only [List.foldl]
    exact le_trans (by norm_num : (0:ℚ) ≤ 36) (le_max_left 36 60)
  exact ⟨rfl, by decide, rfl, by norm_num, hM,
    gamma_fit_curve_properties solverR netC "MGS" sampleProfile 1 1 0 rfl (by decide)
      rfl (by norm_num) (by norm_num) hM⟩

/-- Claim C7 counterexample: the date `"2020-01-01x"` neither equals
`"recent"` nor matches `YYYY-MM-DD` as a whole string, yet the program does
not raise: it proceeds to the network access (because `re.match` only
anchors at the start of the string). -/
theorem fetch_accepts_ill_formed_date :
    dateFullPatB ("2020-01-01x".toList) = false ∧
    ("2020-01-01x" == "recent") = false ∧
    (get_distillation_profile netC "RA" "2020-01-01x").2 =
      Except.ok (some sampleProfile) ∧
    (get_distillation_profile netC "RA" "2020-01-01x").1 =
      [Ev.fetch "RA" "2020-01-01x"] := by
  exact ⟨by decide, by decide, rfl, rfl⟩

theorem dateRegexOk_iff (s : List Char) : dateRegexOk s = true ↔ dateStartsPat s := by
  constructor
  · intro h
    rcases s with _ | ⟨y1, _ | ⟨y2, _ | ⟨y3, _ | ⟨y4, _ | ⟨c5, _ | ⟨m1, _ | ⟨m2,
      _ | ⟨c8, _ | ⟨d1, _ | ⟨d2, rest⟩⟩⟩⟩⟩⟩⟩⟩⟩⟩ <;> try exact Bool.noConfusion h
    have h' : (y1.isDigit && y2.isDigit && y3.isDigit && y4.isDigit && (c5 == '-') &&
        m1.isDigit && m2.isDigit && (c8 == '-') && d1.isDigit && d2.isDigit) = true := h
    simp only [Bool.and_eq_true, beq_iff_eq] at h'
    obtain ⟨⟨⟨⟨⟨⟨⟨⟨⟨hy1, hy2⟩, hy3⟩, hy4⟩, hc5⟩, hm1⟩, hm2⟩, hc8⟩, hd1⟩, hd2⟩ := h'
    subst hc5; subst hc8
    exact ⟨y1, y2, y3, y4, m1, m2, d1, d2, rest, rfl,
      hy1, hy2, hy3, hy4, hm1, hm2, hd1, hd2⟩
  · intro h
    obtain ⟨y1, y2, y3, y4, m1, m2, d1, d2, rest, rfl,
      hy1, hy2, hy3, hy4, hm1, hm2, hd1, hd2⟩ := h
    simp [dateRegexOk, hy1, hy2, hy3, hy4, hm1, hm2, hd1, hd2]

theorem dateAssertOk_iff (date : String) :
    dateAssertOk date = true ↔ (date = "recent" ∨ dateStartsPat date.toList) := by
  unfold dateAssertOk
  rw [Bool.or_eq_true, beq_iff_eq, dateRegexOk_iff]

/-- Claim C7 (amended): `get_distillation_profile` raises the caller error
exactly when the date neither equals `"recent"` nor starts with a
`YYYY-MM-DD`-shaped segment (the check is a prefix match, `re.match`
semantics), and the network is accessed exactly when the error is not
raised — so the check happens before any network access. -/
theorem fetch_date_gate (net : String → String → Option Profile)
    (crude date : String) :
    ((get_distillation_profile net crude date).2 = Except.error PyErr.assertionError ↔
      ¬ (date = "recent" ∨ dateStartsPat date.toList)) ∧
    ((get_distillation_profile net crude date).1 = [] ↔
      (get_distillation_profile net crude date).2 = Except.error PyErr.assertionError) := by
  unfold get_distillation_profile
  by_cases h : dateAssertOk date = true
  · rw [if_pos h]
    have ha := (dateAssertOk_iff date).mp h
    exact ⟨⟨fun hx => absurd hx (by simp), fun hx => absurd ha hx⟩,
      ⟨fun hx => absurd hx (by simp), fun hx => absurd hx (by simp)⟩⟩
  · rw [if_neg h]
    have ha : ¬ (date = "recent" ∨ dateStartsPat date.toList) :=
      fun hc => h ((dateAssertOk_iff date).mpr hc)
    exact ⟨⟨fun _ => ha, fun _ => rfl⟩, ⟨fun _ => rfl, fun _ => rfl⟩⟩

/-- Claim C8: when the solver does not converge on the first crude's data,
the `RuntimeError` propagates out of `gamma_fit` and out of the blend
(only `TypeError` is caught, so the failure is neither swallowed nor turned
into an absent result). -/
theorem solver_failure_propagates {α : Type} [LinearOrderedField α]
    (cdf : α → α → α → α) (solver : Solver α)
    (net : String → String → Option Profile) (c1 c2 : String) (v1 v2 : α)
    (df : Profile) (hnet : net c1 "recent" = some df)
    (hs : solver (dropna df) (distilledOf df) (5, 60) =
      SolverResult.err SolverErr.runtimeError)
    (hv1 : 0 ≤ v1) (hv2 : 0 ≤ v2) :
    (gamma_fit_run cdf solver net c1 "recent").2 = Except.error PyErr.runtimeError ∧
    (gamma_mixture_distillation_profile cdf solver net c1 c2 v1 v2).out =
      BlendOutcome.err PyErr.runtimeError := by
  have hrun : gamma_fit_run cdf solver net c1 "recent" =
      ([Ev.fetch c1 "recent", Ev.solve c1], Except.error PyErr.runtimeError) := by
    unfold gamma_fit_run get_distillation_profile
    rw [if_pos (show dateAssertOk "recent" = true from rfl), hnet]
    dsimp only
    unfold gamma_fit_core
    rw [hs]
    rfl
  refine ⟨by rw [hrun], ?_⟩
  unfold gamma_mixture_distillation_profile
  rw [if_pos ⟨hv1, hv2⟩, hrun]

/-- Witness for C8 with a concretely failing solver. -/
theorem solver_failure_propagates_witness :
    (netC "MGS" "recent" = some sampleProfile) ∧
    (solverFail (dropna sampleProfile) (distilledOf sampleProfile) (5, 60) =
      SolverResult.err SolverErr.runtimeError) ∧
    ((0:ℚ) ≤ 10) ∧ ((0:ℚ) ≤ 5) ∧
    ((gamma_fit_run cdf0 solverFail netC "MGS" "recent").2 =
      Except.error PyErr.runtimeError ∧
    (gamma_mixture_distillation_profile cdf0 solverFail netC "MGS" "RA" 10 5).out =
      BlendOutcome.err PyErr.runtimeError) :=
  ⟨rfl, rfl, by norm_num, by norm_num,
    solver_failure_propagates cdf0 solverFail netC "MGS" "RA" 10 5 sampleProfile rfl rfl
      (by norm_num) (by norm_num)⟩

/-- Claim C9: the fitting stage is deterministic — two profiles with the
same row labels and the same temperature column (the same samples) produce
the same fit result, the solver being a function and the initial guess
being the fixed `(5, 60)`. -/
theorem gamma_fit_deterministic {α : Type} [LinearOrderedField α]
    (cdf : α → α → α → α) (solver : Solver α) (df1 df2 : Profile)
    (h1 : df1.labels = df2.labels) (h2 : df1.temps = df2.temps) :
    gamma_fit_core cdf solver df1 = gamma_fit_core cdf solver df2 := by
  cases df1
  cases df2
  dsimp only at h1 h2
  subst h1
  subst h2
  rfl

/-- Witness for C9: two byte-identical sample profiles fit identically. -/
theorem gamma_fit_deterministic_witness :
    (sampleProfile.labels = sampleProfileCopy.labels) ∧
    (sampleProfile.temps = sampleProfileCopy.temps) ∧
    gamma_fit_core cdf0 solver0 sampleProfile = gamma_fit_core cdf0 solver0 sampleProfileCopy :=
  ⟨rfl, rfl, gamma_fit_deterministic cdf0 solver0 sampleProfile sampleProfileCopy rfl rfl⟩

/-- Claim C10: the fractions are derived from the row labels (`"IBP"` to 0,
a numeric label `x` to `x/100`) and truncated to the number of non-missing
temperature samples, so the two sequences handed to the solver have equal
length. -/
theorem solver_inputs_aligned (df : Profile) :
    (distilledOf df).length = (dropna df).length ∧
    fracOfLabel Label.IBP = 0 ∧
    ∀ q : ℚ, fracOfLabel (Label.num q) = q / 100 := by
  refine ⟨?_, rfl, fun q => rfl⟩
  rw [distilledOf, List.length_take, List.length_map]
  exact min_eq_left (le_trans (List.length_filterMap_le _ _) (le_of_eq df.hlen.symm))

end DistillRepo
